import Mathlib

/-!
Shallow embedding of the `mcp_hiking` package (files
`src/mcp_hiking/api/wikiloc.py` and `src/mcp_hiking/server.py`) and proofs
about it.

Modelling conventions:
* Python exceptions are values of `PyExc`; fallible code returns `Except PyExc α`.
* Python dicts are association lists with insert-overwrite semantics
  (`alistSet`), preserving insertion order like CPython dicts.
* A Python `str`-or-`None` value is a `PyVal`; interpolating it into an
  f-string uses `PyVal.render` (Python `str()`).
* HTML documents are modelled at the boundary of `BeautifulSoup(html,
  "html.parser")`: the parsed tree is a `Node` (only the attributes the code
  reads, `id` and `class`, are modelled).  The external parser itself is not
  modelled; functions that consume a detail page take the parsed tree.
* The external decoders used by `extract_geometry` (`json.loads`,
  `base64.b64decode`, `wkbparse.twkb_to_geojson`) are parameters collected in
  `PyEnv`; theorems quantify over them.
-/

namespace McpHiking

/-- Python exception classes that the embedded code can raise or catch. -/
inductive PyExc where
  | keyError (key : String)
  | indexError
  | typeError
  | valueError (msg : String)
  | jsonDecodeError
  | binasciiError
  | attributeError (attr : String)
  deriving DecidableEq, Repr

/-- A Python value that is either a `str` or `None` (the two value shapes that
occur in the trail dictionaries built by `search_trails`). -/
inductive PyVal where
  | str (s : String)
  | noneV
  deriving DecidableEq, Repr

/-- Python `str()` of a `PyVal`, as used by f-string interpolation. -/
def PyVal.render : PyVal → String
  | .str s => s
  | .noneV => "None"

/-- First value bound to key `k` in an association list (Python dict lookup). -/
def alistFind {α : Type} (d : List (String × α)) (k : String) : Option α :=
  match d.find? (fun p => p.1 == k) with
  | some p => some p.2
  | Option.none => Option.none

/-- Python `d[k] = v`: overwrite the binding in place if the key exists,
otherwise append it (CPython dicts preserve insertion order). -/
def alistSet {α : Type} (d : List (String × α)) (k : String) (v : α) : List (String × α) :=
  if (d.find? (fun p => p.1 == k)).isSome then
    d.map (fun p => if p.1 == k then (k, v) else p)
  else d ++ [(k, v)]

/-- Python `d.update(entries)`. -/
def alistUpdate {α : Type} (d entries : List (String × α)) : List (String × α) :=
  entries.foldl (fun acc kv => alistSet acc kv.1 kv.2) d

/-- Python `d[k]`: the value, or a raised `KeyError`. -/
def pyGetItem {α : Type} (d : List (String × α)) (k : String) : Except PyExc α :=
  match alistFind d k with
  | some v => Except.ok v
  | Option.none => Except.error (PyExc.keyError k)

/-- Python `d.get(k, dflt)`. -/
def pyGet {α : Type} (d : List (String × α)) (k : String) (dflt : α) : α :=
  (alistFind d k).getD dflt

/-- Whether `needle` occurs as a contiguous sublist of the second argument. -/
def containsSub (needle : List Char) : List Char → Bool
  | [] => needle.isEmpty
  | c :: t => needle.isPrefixOf (c :: t) || containsSub needle t

/-- Python `needle in hay` on strings. -/
def strContains (hay needle : String) : Bool :=
  containsSub needle.toList hay.toList

/-- Python `s.startswith(p)`. -/
def pyStartsWith (s p : String) : Bool :=
  p.toList.isPrefixOf s.toList

/-- Characters treated as whitespace by Python `str.strip()` (the ASCII
whitespace characters plus the no-break space, the only ones that occur in
the modelled documents). -/
def pySpace (c : Char) : Bool :=
  c == ' ' || c == '\t' || c == '\n' || c == '\r' ||
    c == Char.ofNat 11 || c == Char.ofNat 12 || c == Char.ofNat 160

/-- Python `s.strip()` on a character list. -/
def pyStrip (cs : List Char) : List Char :=
  ((cs.dropWhile pySpace).reverse.dropWhile pySpace).reverse

/-- Python `s.strip()`. -/
def stripText (s : String) : String := String.mk (pyStrip s.toList)

/-- Python `s.replace(NBSP, " ")` where NBSP is U+00A0 (a one-character
replacement is a character map). -/
def replaceNbsp (s : String) : String :=
  String.mk (s.toList.map (fun c => if c == Char.ofNat 160 then ' ' else c))

/-- Split a character list at every occurrence of `sep` (Python
`s.split(sep)` for a one-character separator: always at least one piece,
empty pieces preserved). -/
def splitOnChar (sep : Char) : List Char → List (List Char)
  | [] => [[]]
  | c :: t =>
    let r := splitOnChar sep t
    if c == sep then [] :: r
    else
      match r with
      | [] => [[c]]
      | h :: t2 => (c :: h) :: t2

/-- Python `s.split(sep)` for a one-character separator string. -/
def pySplit (s : String) (sep : Char) : List String :=
  (splitOnChar sep s.toList).map String.mk

/-- The parsed HTML tree produced by `BeautifulSoup(html, "html.parser")`.
Only the attributes the code reads are modelled: the `id` attribute and the
`class` list. -/
inductive Node where
  | text (s : String)
  | elem (tag : String) (idAttr : Option String) (classes : List String) (children : List Node)
  deriving Repr

mutual

/-- All descendants of a node in document (preorder) order, the node itself
excluded — the search space of BeautifulSoup `find`. -/
def descendants : Node → List Node
  | .text _ => []
  | .elem _ _ _ cs => descendantsForest cs

/-- Descendants of a forest of sibling nodes, in document order, the siblings
themselves included. -/
def descendantsForest : List Node → List Node
  | [] => []
  | n :: ns => n :: descendants n ++ descendantsForest ns

end

/-- Whether a node is an element with the given tag name. -/
def isTag (t : String) : Node → Bool
  | .elem tg _ _ _ => tg == t
  | _ => false

/-- BeautifulSoup `node.find(t)`: the first descendant element with tag `t`. -/
def findTag (n : Node) (t : String) : Option Node :=
  (descendants n).find? (isTag t)

/-- BeautifulSoup `soup.find("section", id="trail-data")`. -/
def findTrailDataSection (doc : Node) : Option Node :=
  (descendants doc).find? (fun n =>
    match n with
    | .elem tg idA _ _ => tg == "section" && idA == some "trail-data"
    | _ => false)

mutual

/-- CSS selection `sec.select("dl.data-items .d-item")`: elements carrying
class `d-item` that are proper descendants of a `dl` element carrying class
`data-items`, in document order.  `insideDl` records whether such a `dl`
ancestor has been passed. -/
def selectDItems (insideDl : Bool) : Node → List Node
  | .text _ => []
  | .elem tag idA classes children =>
    let hit := insideDl && classes.contains "d-item"
    let inside := insideDl || (tag == "dl" && classes.contains "data-items")
    (if hit then [Node.elem tag idA classes children] else []) ++
      selectDItemsForest inside children

/-- `selectDItems` over a forest of siblings. -/
def selectDItemsForest (insideDl : Bool) : List Node → List Node
  | [] => []
  | n :: ns => selectDItems insideDl n ++ selectDItemsForest insideDl ns

end

mutual

/-- The text nodes below a node, in document order (BeautifulSoup
`node.strings`). -/
def textStrings : Node → List String
  | .text s => [s]
  | .elem _ _ _ cs => textStringsForest cs

/-- Text nodes of a forest of siblings. -/
def textStringsForest : List Node → List String
  | [] => []
  | n :: ns => textStrings n ++ textStringsForest ns

end

/-- BeautifulSoup `node.get_text(strip=True)`: each contained string is
stripped, empty results are dropped, and the rest are concatenated. -/
def getTextStrip (n : Node) : String :=
  String.join (((textStrings n).map stripText).filter (fun s => !(s == "")))

/-- Processing of one `.d-item` element by `extract_trail_statistics`
(wikiloc.py lines 68-85): the `(key, value)` pair it contributes, or `none`
when `dt` or `dd` is missing (`if not (dt and dd): continue`; a found
BeautifulSoup tag is always truthy).  The `TrailRank` special case reads only
the first nested `span`, and records an empty string when there is none. -/
def itemEntry (item : Node) : Option (String × String) :=
  match findTag item "dt", findTag item "dd" with
  | some dt, some dd =>
    let key := replaceNbsp (getTextStrip dt)
    let value :=
      if strContains key "TrailRank" then
        match findTag dd "span" with
        | some sp => getTextStrip sp
        | Option.none => ""
      else replaceNbsp (getTextStrip dd)
    some (key, value)
  | _, _ => Option.none

/-- One iteration of the `for item in section.select(...)` loop body:
`data[key] = value`, or `continue`. -/
def statItem (data : List (String × String)) (item : Node) : List (String × String) :=
  match itemEntry item with
  | some kv => alistSet data kv.1 kv.2
  | Option.none => data

/-- wikiloc.py `extract_trail_statistics` (lines 59-87), embedded over the
parsed document tree.  Returns the label-to-value mapping, `[]` when the
`section#trail-data` region is absent.  The embedding is a total function:
the Python body raises no exception on any parsed document. -/
def extract_trail_statistics (doc : Node) : List (String × String) :=
  match findTrailDataSection doc with
  | Option.none => []
  | some sec => (selectDItems false sec).foldl statItem []

/-- wikiloc.py line 13. -/
def WIKILOC_API_BASE : String := "https://es.wikiloc.com/wikiloc/find.do"

/-- wikiloc.py line 14. -/
def GOOGLE_MAPS_LOCATION : String := "https://www.google.com/maps/search/?api=1&query="

/-- wikiloc.py line 15. -/
def USER_AGENT : String := "wikiloc-app/1.0"

/-- wikiloc.py lines 16-22: the closed difficulty translation table. -/
def difficulty_translation : List (String × String) :=
  [("Fácil", "Easy"),
   ("Moderado", "Moderate"),
   ("Difícil", "Hard"),
   ("Muy Difícil", "Very Hard"),
   ("Solo expertos", "Experts Only")]

/-- wikiloc.py line 45:
`difficulty_translation.get(trail.get("Dificultad técnica", ""), "Unknown")`.
The inner `get` defaults to the string `""`; a `None` value is not a key of
the translation table, so it also falls through to `"Unknown"`. -/
def difficultyOf (trail : List (String × PyVal)) : String :=
  match pyGet trail "Dificultad técnica" (PyVal.str "") with
  | .str s => (alistFind difficulty_translation s).getD "Unknown"
  | .noneV => "Unknown"

/-- wikiloc.py `format_trail` (lines 43-57).  The f-string fields are
evaluated left to right; a missing bracketed key raises `KeyError` for that
key.  The template text (including the stray space after the distance value
and the space before the difficulty colon) is reproduced verbatim. -/
def format_trail (trail : List (String × PyVal)) : Except PyExc String := do
  let difficulty := difficultyOf trail
  let title ← pyGetItem trail "title"
  let url ← pyGetItem trail "url"
  let dist ← pyGetItem trail "Distancia"
  let gain ← pyGetItem trail "Desnivel positivo"
  let loss ← pyGetItem trail "Desnivel negativo"
  let maxAlt ← pyGetItem trail "Altitud máxima"
  let rank ← pyGetItem trail "TrailRank"
  let minAlt ← pyGetItem trail "Altitud mínima"
  let routeType ← pyGetItem trail "Tipo de ruta"
  return "\nTitle: " ++ title.render ++
    "\nURL: " ++ url.render ++
    "\nDistance: " ++ dist.render ++ " " ++
    "\nElevation gain: " ++ gain.render ++
    "\nElevation loss: " ++ loss.render ++
    "\nDifficulty : " ++ difficulty ++
    "\nMaximum altitude: " ++ maxAlt.render ++
    "\nTrailRank: " ++ rank.render ++
    "\nMinimum altitude: " ++ minAlt.render ++
    "\nTrail type: " ++ routeType.render ++ "\n"

/-- A candidate record from the upstream search response (one element of the
`spas` list): a JSON object whose values are strings or null. -/
abbrev Spa := List (String × PyVal)

/-- A working trail record built by the `search_trails` loop. -/
abbrev Trail := List (String × PyVal)

/-- The upstream search response body when it parses as JSON: the value of
the `spas` key when that key is present, plus the names of any other
top-level keys (tracked only for dict truthiness). -/
structure SearchJson where
  spas : Option (List Spa)
  extraKeys : List String

/-- Outcome of `make_wikiloc_request` for the search endpoint: `noResult`
models the `None` returned on any transport or HTTP error, `json` a parsed
JSON body.  (An HTML body at the search endpoint is outside the modelled
response space.) -/
inductive SearchResp where
  | noResult
  | json (d : SearchJson)

/-- Outcome of `make_wikiloc_request` for a trail detail page, at the
granularity `search_trails` inspects it: an HTML text body (carried as its
parsed tree) passes `isinstance(response, str)`; `None` and JSON bodies do
not. -/
inductive DetailResp where
  | htmlDoc (doc : Node)
  | nonHtml

/-- The upstream world `search_trails` runs against: the search response and
the response for each detail-page URL. -/
structure FetchEnv where
  search : SearchResp
  detail : String → DetailResp

/-- Python truthiness of the search response value: `None` and an empty dict
are falsy (`if not data ...`). -/
def respFalsy : SearchResp → Bool
  | .noResult => true
  | .json d => d.spas.isNone && d.extraKeys.isEmpty

/-- Python `"spas" in data` for a dict response (`False` for `None`). -/
def hasSpasKey : SearchResp → Bool
  | .noResult => false
  | .json d => d.spas.isSome

/-- The candidate list `data["spas"]` (only read after the guards of
`search_trails` established that the key is present). -/
def spasOf : SearchResp → List Spa
  | .noResult => []
  | .json d => d.spas.getD []

/-- Body of the `for spa in data["spas"]` loop of `search_trails` (wikiloc.py
lines 195-213): build the summary record (raising `KeyError` when `name` or
`prettyURL` is missing), fetch the detail page, and merge the extracted
statistics only when the response is an HTML string. -/
def buildTrail (env : FetchEnv) (spa : Spa) : Except PyExc Trail := do
  let name ← pyGetItem spa "name"
  let purl ← pyGetItem spa "prettyURL"
  let url := "https://es.wikiloc.com" ++ purl.render
  let trail : Trail :=
    [("title", name),
     ("url", PyVal.str url),
     ("distance_km", pyGet spa "distance" PyVal.noneV),
     ("slope", pyGet spa "slope" PyVal.noneV),
     ("author", pyGet spa "author" PyVal.noneV),
     ("location", pyGet spa "near" PyVal.noneV),
     ("trailrank", pyGet spa "trailrank" PyVal.noneV)]
  match env.detail url with
  | .htmlDoc doc =>
    pure (alistUpdate trail ((extract_trail_statistics doc).map (fun kv => (kv.1, PyVal.str kv.2))))
  | .nonHtml => pure trail

/-- wikiloc.py `search_trails` (lines 159-218).  The request construction
(params dict, user agent, timeout) is I/O glue; the function is embedded over
the upstream responses `env` and the `max_results` cap. -/
def search_trails (env : FetchEnv) (max_results : Nat) : Except PyExc String :=
  let data := env.search
  if respFalsy data || !(hasSpasKey data) then
    Except.ok "Unable to fetch trails or no trails found."
  else if (spasOf data).isEmpty then
    Except.ok "No trails found for this search."
  else do
    let trails ← (spasOf data).mapM (buildTrail env)
    let top_trails ← (trails.take max_results).mapM format_trail
    return String.intercalate "\n---\n" top_trails

/-- A parsed JSON value (`json.loads` output).  A number is carried as its
Python `str()` rendering; no claim performs arithmetic on it. -/
inductive Json where
  | null
  | bool (b : Bool)
  | num (rendering : String)
  | str (s : String)
  | arr (items : List Json)
  | obj (fields : List (String × Json))
  deriving Repr

/-- Python subscripting `v[k]` with a string key: dict lookup (`KeyError`
when absent); every non-dict value raises `TypeError`. -/
def Json.getItem : Json → String → Except PyExc Json
  | .obj fields, k =>
    match alistFind fields k with
    | some v => Except.ok v
    | Option.none => Except.error (PyExc.keyError k)
  | _, _ => Except.error PyExc.typeError

/-- Python subscripting `v[i]` with a non-negative integer: list indexing
(`IndexError` out of range), string indexing, `KeyError` for a dict with
string keys, `TypeError` otherwise. -/
def Json.getIdx : Json → Nat → Except PyExc Json
  | .arr items, i =>
    match items.get? i with
    | some v => Except.ok v
    | Option.none => Except.error PyExc.indexError
  | .str s, i =>
    match s.toList.get? i with
    | some c => Except.ok (.str (String.mk [c]))
    | Option.none => Except.error PyExc.indexError
  | .obj _, i => Except.error (PyExc.keyError (Nat.repr i))
  | _, _ => Except.error PyExc.typeError

/-- Python `v == "s"` for a parsed JSON value: only a string can compare
equal to a string. -/
def Json.isStr (j : Json) (s : String) : Bool :=
  match j with
  | .str s2 => s2 == s
  | _ => false

/-- Python `str()` of a parsed JSON value, as interpolated into the map-link
URLs.  Composite values never occur in those fields; their renderings are
coarse placeholders. -/
def jsonRender : Json → String
  | .str s => s
  | .num r => r
  | .bool true => "True"
  | .bool false => "False"
  | .null => "None"
  | .arr _ => "[...]"
  | .obj _ => "\x7b...\x7d"

/-- Python iteration over a parsed JSON value (the list comprehension of
wikiloc.py line 115): a list yields its items, a string its characters, a
dict its keys; other values raise `TypeError`. -/
def jsonIterate : Json → Except PyExc (List Json)
  | .arr items => Except.ok items
  | .str s => Except.ok (s.toList.map (fun c => Json.str (String.mk [c])))
  | .obj fields => Except.ok (fields.map (fun kv => Json.str kv.1))
  | _ => Except.error PyExc.typeError

/-- The external decoders used by `extract_geometry`: `json.loads`,
`base64.b64decode` (bytes as a list of byte values) and
`wkbparse.twkb_to_geojson`.  Theorems quantify over them. -/
structure PyEnv where
  jsonLoads : String → Except PyExc Json
  b64decode : String → Except PyExc (List Nat)
  twkbToGeojson : List Nat → Except PyExc Json

/-- `base64.b64decode` requires a `str` (or bytes) argument; a non-string
parsed-JSON value raises `TypeError`. -/
def b64arg : Json → Except PyExc String
  | .str s => Except.ok s
  | _ => Except.error PyExc.typeError

/-- `pathlib.Path(...)` requires a `str` argument here; a non-string
parsed-JSON value raises `TypeError`. -/
def pathArg : Json → Except PyExc String
  | .str s => Except.ok s
  | _ => Except.error PyExc.typeError

/-- The final path component, as `pathlib.PurePosixPath(...).name` computes
it for the URL paths at hand (empty components from repeated or trailing
slashes are ignored; dot normalization is not modelled). -/
def pathName (s : String) : String :=
  (((pySplit s '/').filter (fun c => !(c == ""))).getLast?).getD ""

/-- Index of the last occurrence of `c`, if any. -/
def rfindChar (cs : List Char) (c : Char) : Option Nat :=
  match cs.reverse.findIdx? (· == c) with
  | some j => some (cs.length - 1 - j)
  | Option.none => Option.none

/-- `pathlib.Path(...).stem`: the final component with its suffix removed;
the suffix is the part from the last dot when that dot is neither the first
nor the last character of the name. -/
def pathStem (s : String) : String :=
  let nm := (pathName s).toList
  match rfindChar nm '.' with
  | some i =>
    if 0 < i then
      if i < nm.length - 1 then String.mk (nm.take i) else String.mk nm
    else String.mk nm
  | Option.none => String.mk nm

/-- Python `line.find("=")`: index of the first `=`, `-1` when absent. -/
def pyFindEq (line : List Char) : Int :=
  match line.findIdx? (· == '=') with
  | some i => (i : Int)
  | Option.none => -1

/-- Trailing-`;` strip, Python `s.rstrip(";")`. -/
def rstripSemi (cs : List Char) : List Char :=
  (cs.reverse.dropWhile (· == ';')).reverse

/-- The dict returned by `extract_geometry` on success (wikiloc.py lines
117-123).  Coordinates are kept as the parsed-JSON component triples in the
order the source tuples them. -/
structure Geometry where
  name : Json
  slug : String
  coordinates : List (Json × Json × Json)
  start_url : String
  end_url : String
  deriving Repr

/-- wikiloc.py lines 113-116: when the decoded GeoJSON has type
`"LineString"`, tuple up components `[0]`, `[1]`, `[2]` of each coordinate
row (`coords = [(coord[0],coord[1],coord[2]) for coord in ...]`); otherwise
the empty list.  Reading the missing `type` key raises `KeyError`. -/
def lineStringCoords (geojson : Json) : Except PyExc (List (Json × Json × Json)) := do
  let ty ← geojson.getItem "type"
  if ty.isStr "LineString" then
    let rowsJson ← geojson.getItem "coordinates"
    let rows ← jsonIterate rowsJson
    rows.mapM (fun c => do
      let c0 ← c.getIdx 0
      let c1 ← c.getIdx 1
      let c2 ← c.getIdx 2
      pure (c0, c1, c2))
  else pure []

/-- Statement-side helper for comparing against the spec: the first three
components of a GeoJSON coordinate row, in the order the row lists them
(GeoJSON rows are longitude-first). -/
def rowComponents (r : Json) : Json × Json × Json :=
  match r with
  | Json.arr (a :: b :: c :: _) => (a, b, c)
  | _ => (Json.null, Json.null, Json.null)

/-- The `try` body of `extract_geometry` for one candidate line (wikiloc.py
lines 96-123), in source evaluation order. -/
def extractFromLine (env : PyEnv) (line : String) : Except PyExc Geometry := do
  let start := pyFindEq line.toList + 1
  let json_str := String.mk (rstripSemi (pyStrip (line.toList.drop start.toNat)))
  let data ← env.jsonLoads json_str
  let record ← (← data.getItem "mapData").getIdx 0
  let geomB64 ← b64arg (← record.getItem "geom")
  let twkb_geom ← env.b64decode geomB64
  let slug := pathStem (← pathArg (← record.getItem "prettyURL"))
  let name ← record.getItem "nom"
  let blat ← record.getItem "blat"
  let blng ← record.getItem "blng"
  let start_url := GOOGLE_MAPS_LOCATION ++ jsonRender blat ++ "," ++ jsonRender blng
  let elat ← record.getItem "elat"
  let elng ← record.getItem "elng"
  let end_url := GOOGLE_MAPS_LOCATION ++ jsonRender elat ++ "," ++ jsonRender elng
  let geojson ← env.twkbToGeojson twkb_geom
  let coords ← lineStringCoords geojson
  pure (Geometry.mk name slug coords start_url end_url)

/-- The exception classes named in the `except` clause of `extract_geometry`
(wikiloc.py line 124): `json.JSONDecodeError`, `KeyError`, `IndexError`,
`base64.binascii.Error`. -/
def caughtByExtractGeometry : PyExc → Bool
  | .jsonDecodeError => true
  | .keyError _ => true
  | .indexError => true
  | .binasciiError => true
  | _ => false

/-- The `for line in lines` scan of `extract_geometry`: a line is a candidate
when it contains `"var mapData ="`; a caught failure logs and continues with
the next line, an uncaught one propagates; no candidate line means the empty
dict. -/
def extractGeometryLoop (env : PyEnv) : List String → Except PyExc (Option Geometry)
  | [] => Except.ok Option.none
  | line :: rest =>
    if strContains line "var mapData =" then
      match extractFromLine env line with
      | .ok geom => Except.ok (some geom)
      | .error e =>
        if caughtByExtractGeometry e then extractGeometryLoop env rest
        else Except.error e
    else extractGeometryLoop env rest

/-- wikiloc.py `extract_geometry` (lines 89-128): split the page into lines
and scan.  `Option.none` stands for the returned empty dict `{}` (which is
falsy for the caller); `some g` for the populated geometry dict (always
truthy, it has five keys). -/
def extract_geometry (env : PyEnv) (html : String) : Except PyExc (Option Geometry) :=
  extractGeometryLoop env (pySplit html '\n')

/-- The serialized track file `create_kml` (wikiloc.py lines 130-157) writes:
its path under the fixed output directory, the path feature, and the
start/end markers added only when the coordinate list is non-empty.  The
fixed line style and the `kml.save` I/O are not modelled beyond this record. -/
structure KmlFile where
  name : String
  description : String
  path : String
  coordinates : List (Json × Json × Json)
  markers : List (String × (Json × Json × Json))
  deriving Repr

/-- wikiloc.py `create_kml`: the document it persists, path
`routes/<slug>.kml` (the `Path.absolute()` filesystem resolution is left
relative). -/
def create_kml (name slug : String) (coordinates : List (Json × Json × Json)) : KmlFile :=
  let markers :=
    match coordinates with
    | [] => []
    | c :: rest => [("Start", c), ("End", (rest.getLast?).getD c)]
  KmlFile.mk name "Hiking trail from WikiLoc" ("routes/" ++ slug ++ ".kml") coordinates markers

/-- The positional parameters of `create_kml` (wikiloc.py line 130), all
required. -/
def create_kml_params : List String := ["name", "slug", "coordinates"]

/-- Python positional call binding: calling a function whose required
positional parameters are `params` with `argc` positional arguments raises
`TypeError` unless the counts match. -/
def bindCall (params : List String) (argc : Nat) : Except PyExc Unit :=
  if argc == params.length then Except.ok () else Except.error PyExc.typeError

/-- server.py `GeometryResponse` dataclass.  The coordinate components are
whatever the (never reached) attribute reads would produce. -/
structure GeometryResponse where
  kml_path : String
  start_coordinates : Json × Json
  end_coordinates : Json × Json
  deriving Repr

/-- Subscripting the geometry dict returned by `extract_geometry` with an
integer (`coordinates[0]`, `coordinates[-1]` in server.py lines 79-80): its
keys are the five field-name strings, so every integer subscript raises
`KeyError`. -/
def Geometry.intIndex (g : Geometry) (i : Int) : Except PyExc Json :=
  Except.error (PyExc.keyError (toString i))

/-- Attribute access `.lat` / `.lon` on a value decoded from JSON (a tuple in
the real code): no such attribute exists, `AttributeError`. -/
def jsonAttr (v : Json) (a : String) : Except PyExc Json :=
  Except.error (PyExc.attributeError a)

/-- Outcome of `make_wikiloc_request` for the route detail page as
`get_route_geometry` inspects it: an HTML text body (the raw string, which
`extract_geometry` scans line by line), or anything that fails
`isinstance(html, str)`. -/
inductive RouteResp where
  | htmlText (body : String)
  | nonStr

/-- server.py `get_route_geometry` (lines 36-81), embedded over the external
decoders `env` and the upstream response `fetch`.  The `os.makedirs` call and
`os.path.relpath` (identity on the already-relative path) are filesystem
glue.  The `wikiloc.create_kml(coordinates, kml_path)` call passes two
positional arguments to a function with three required parameters. -/
def get_route_geometry (env : PyEnv) (fetch : String → RouteResp) (route_url : String) :
    Except PyExc GeometryResponse := do
  if !(pyStartsWith route_url "https://es.wikiloc.com/") then
    throw (PyExc.valueError "Invalid Wikiloc URL. Must be a URL from es.wikiloc.com")
  let html ← match fetch route_url with
    | .htmlText s => pure s
    | .nonStr => throw (PyExc.valueError "Failed to fetch route data")
  let coordinates ← extract_geometry env html
  let geom ← match coordinates with
    | some g => pure g
    | Option.none => throw (PyExc.valueError "No route geometry found")
  let lastSeg := ((pySplit route_url '/').getLast?).getD ""
  let route_id := ((pySplit lastSeg '-').headD "")
  let kml_path := "routes/route_" ++ route_id ++ ".kml"
  let _ ← bindCall create_kml_params 2
  let p0 ← Geometry.intIndex geom 0
  let lat0 ← jsonAttr p0 "lat"
  let lon0 ← jsonAttr p0 "lon"
  let pn ← Geometry.intIndex geom (-1)
  let latn ← jsonAttr pn "lat"
  let lonn ← jsonAttr pn "lon"
  return GeometryResponse.mk kml_path (lat0, lon0) (latn, lonn)

/-- The module-level names defined by `src/mcp_hiking/api/wikiloc.py`: its
imports (lines 2-10), constants (lines 13-22) and function definitions.
`search_routes` is not among them. -/
def wikiloc_module_attrs : List String :=
  ["Any", "List", "Tuple", "base64", "json", "Path", "httpx", "simplekml",
   "wkbparse", "BeautifulSoup", "WIKILOC_API_BASE", "GOOGLE_MAPS_LOCATION",
   "USER_AGENT", "difficulty_translation", "make_wikiloc_request",
   "format_trail", "extract_trail_statistics", "extract_geometry",
   "create_kml", "search_trails"]

/-- server.py `get_routes` (lines 17-34): the body evaluates
`wikiloc.search_routes(...)`.  The attribute lookup on the module happens
before any call; `searchImpl` stands for whatever the call would evaluate to
if the attribute existed.  The tool parameters are carried to mirror the
source signature (floats as rationals); none of them is consulted before the
lookup. -/
def get_routes (searchImpl : Except PyExc String) (query : String)
    (sw_lat sw_lon ne_lat ne_lon : ℚ) (page : Int) (max_results : Nat) :
    Except PyExc String :=
  if wikiloc_module_attrs.contains "search_routes" then searchImpl
  else Except.error (PyExc.attributeError "search_routes")

/-- The first per-trail record of the concrete embedded-geometry fixture. -/
def geoMapRecord : Json :=
  Json.obj [("geom", Json.str "QUJD"),
    ("prettyURL", Json.str "/rutas/test-route-123"),
    ("nom", Json.str "Test Route"),
    ("blat", Json.num "41.0"), ("blng", Json.num "2.0"),
    ("elat", Json.num "41.5"), ("elng", Json.num "2.5")]

/-- The decoded GeoJSON of the fixture: a LineString whose rows are
longitude-first triples. -/
def geoLineString : Json :=
  Json.obj [("type", Json.str "LineString"),
    ("coordinates", Json.arr [Json.arr [Json.num "1.5", Json.num "2.5", Json.num "0"],
                              Json.arr [Json.num "1.6", Json.num "2.6", Json.num "7"]])]

/-- Concrete external decoders for the fixture page: the embedded JSON text
parses to a `mapData` record, base64 yields some bytes, and the TWKB decoder
yields `geoLineString`. -/
def geoEnv : PyEnv :=
  PyEnv.mk
    (fun s => if s == "\x7b\x22mapData\x22: 1\x7d" then
        Except.ok (Json.obj [("mapData", Json.arr [geoMapRecord])])
      else Except.error PyExc.jsonDecodeError)
    (fun _ => Except.ok [1, 2, 3])
    (fun _ => Except.ok geoLineString)

/-- The fixture detail page: one candidate line with a well-formed embedded
geometry assignment. -/
def geoHtml : String := "header\nvar mapData = \x7b\x22mapData\x22: 1\x7d;\nfooter"

/-- What `extract_geometry` returns on the fixture page. -/
def geoResult : Geometry :=
  Geometry.mk (Json.str "Test Route") "test-route-123"
    [(Json.num "1.5", Json.num "2.5", Json.num "0"),
     (Json.num "1.6", Json.num "2.6", Json.num "7")]
    "https://www.google.com/maps/search/?api=1&query=41.0,2.0"
    "https://www.google.com/maps/search/?api=1&query=41.5,2.5"

/-- Upstream responses for the fixture: every URL serves the fixture page. -/
def routeFetch : String → RouteResp := fun _ => RouteResp.htmlText geoHtml

/-! Concrete fixtures used by witnesses and counterexamples. -/

def c9doc : Node :=
  Node.elem "html" none [] [Node.elem "p" none [] [Node.text "no statistics here"]]

def c10docA : Node :=
  Node.elem "html" none [] [
    Node.elem "section" (some "trail-data") [] [
      Node.elem "dl" none ["data-items"] [
        Node.elem "div" none ["d-item"] [
          Node.elem "dt" none [] [Node.text "TrailRank"],
          Node.elem "dd" none [] [
            Node.elem "span" none [] [Node.text " 85 "],
            Node.elem "span" none ["hidden"] [Node.text "decorative text"]]]]]]

def c10docB : Node :=
  Node.elem "html" none [] [
    Node.elem "section" (some "trail-data") [] [
      Node.elem "dl" none ["data-items"] [
        Node.elem "div" none ["d-item"] [
          Node.elem "dt" none [] [Node.text "TrailRank"],
          Node.elem "dd" none [] [Node.text "no nested sub-element"]]]]]

def c8trailEasy : Trail :=
  [("title", PyVal.str "Test Trail"), ("url", PyVal.str "https://es.wikiloc.com/x"),
   ("Distancia", PyVal.str "10 km"), ("Desnivel positivo", PyVal.str "500 m"),
   ("Desnivel negativo", PyVal.str "500 m"), ("Dificultad técnica", PyVal.str "Fácil"),
   ("Altitud máxima", PyVal.str "1500 m"), ("TrailRank", PyVal.str "85"),
   ("Altitud mínima", PyVal.str "1000 m"), ("Tipo de ruta", PyVal.str "Circular")]

def c8trailOdd : Trail := [("Dificultad técnica", PyVal.str "Extrema")]

def c8trailAbsent : Trail := [("title", PyVal.str "t")]

def c8rendered : String :=
  "\nTitle: Test Trail\nURL: https://es.wikiloc.com/x\nDistance: 10 km \nElevation gain: 500 m\nElevation loss: 500 m\nDifficulty : Easy\nMaximum altitude: 1500 m\nTrailRank: 85\nMinimum altitude: 1000 m\nTrail type: Circular\n"

def envMissingKey : FetchEnv :=
  FetchEnv.mk (SearchResp.json (SearchJson.mk Option.none ["count"])) (fun _ => DetailResp.nonHtml)

def envEmptyList : FetchEnv :=
  FetchEnv.mk (SearchResp.json (SearchJson.mk (some []) [])) (fun _ => DetailResp.nonHtml)

def spaA : Spa :=
  [("name", PyVal.str "Test Trail"), ("prettyURL", PyVal.str "/wikiloc/test-trail"),
   ("trailrank", PyVal.str "85")]

def statsDocA : Node :=
  Node.elem "html" none [] [
    Node.elem "section" (some "trail-data") [] [
      Node.elem "dl" none ["data-items"] [
        Node.elem "div" none ["d-item"] [
          Node.elem "dt" none [] [Node.text "Distancia"],
          Node.elem "dd" none [] [Node.text "10.5 km"]],
        Node.elem "div" none ["d-item"] [
          Node.elem "dt" none [] [Node.text "Desnivel positivo"],
          Node.elem "dd" none [] [Node.text "500 m"]],
        Node.elem "div" none ["d-item"] [
          Node.elem "dt" none [] [Node.text "Desnivel negativo"],
          Node.elem "dd" none [] [Node.text "480 m"]],
        Node.elem "div" none ["d-item"] [
          Node.elem "dt" none [] [Node.text "Dificultad técnica"],
          Node.elem "dd" none [] [Node.text "Moderado"]],
        Node.elem "div" none ["d-item"] [
          Node.elem "dt" none [] [Node.text "Altitud máxima"],
          Node.elem "dd" none [] [Node.text "1500 m"]],
        Node.elem "div" none ["d-item"] [
          Node.elem "dt" none [] [Node.text "TrailRank"],
          Node.elem "dd" none [] [Node.elem "span" none [] [Node.text "85"]]],
        Node.elem "div" none ["d-item"] [
          Node.elem "dt" none [] [Node.text "Altitud mínima"],
          Node.elem "dd" none [] [Node.text "1000 m"]],
        Node.elem "div" none ["d-item"] [
          Node.elem "dt" none [] [Node.text "Tipo de ruta"],
          Node.elem "dd" none [] [Node.text "Circular"]]]]]

def envSearchOk : FetchEnv :=
  FetchEnv.mk (SearchResp.json (SearchJson.mk (some [spaA]) []))
    (fun _ => DetailResp.htmlDoc statsDocA)

def trailA : Trail :=
  [("title", PyVal.str "Test Trail"),
   ("url", PyVal.str "https://es.wikiloc.com/wikiloc/test-trail"),
   ("distance_km", PyVal.noneV), ("slope", PyVal.noneV), ("author", PyVal.noneV),
   ("location", PyVal.noneV), ("trailrank", PyVal.str "85"),
   ("Distancia", PyVal.str "10.5 km"), ("Desnivel positivo", PyVal.str "500 m"),
   ("Desnivel negativo", PyVal.str "480 m"), ("Dificultad técnica", PyVal.str "Moderado"),
   ("Altitud máxima", PyVal.str "1500 m"), ("TrailRank", PyVal.str "85"),
   ("Altitud mínima", PyVal.str "1000 m"), ("Tipo de ruta", PyVal.str "Circular")]

def renderedA : String :=
  "\nTitle: Test Trail\nURL: https://es.wikiloc.com/wikiloc/test-trail\nDistance: 10.5 km \nElevation gain: 500 m\nElevation loss: 480 m\nDifficulty : Moderate\nMaximum altitude: 1500 m\nTrailRank: 85\nMinimum altitude: 1000 m\nTrail type: Circular\n"

def spaNoDetail : Spa :=
  [("name", PyVal.str "Test Trail"), ("prettyURL", PyVal.str "/wikiloc/test-trail")]

def envDetailFail : FetchEnv :=
  FetchEnv.mk (SearchResp.json (SearchJson.mk (some [spaNoDetail]) []))
    (fun _ => DetailResp.nonHtml)

def c7env : PyEnv :=
  PyEnv.mk (fun _ => Except.error PyExc.jsonDecodeError)
    (fun _ => Except.ok []) (fun _ => Except.ok Json.null)

def c7line : String := "var mapData = not valid json"

def c6rows : List Json :=
  [Json.arr [Json.num "1.5", Json.num "2.5", Json.num "0"],
   Json.arr [Json.num "1.6", Json.num "2.6", Json.num "7"]]

/-! Helper lemmas about the dict model. -/

theorem alistFind_nil {α : Type} (k : String) : alistFind ([] : List (String × α)) k = Option.none :=
  rfl

theorem alistFind_cons {α : Type} (hd : String × α) (tl : List (String × α)) (k : String) :
    alistFind (hd :: tl) k = if hd.1 == k then some hd.2 else alistFind tl k := by
  cases h : hd.1 == k <;> simp [alistFind, List.find?, h]

theorem alistFind_set_self {α : Type} (k : String) (v : α) :
    ∀ d : List (String × α), alistFind (alistSet d k v) k = some v := by
  have hmap : ∀ d : List (String × α), alistFind d k ≠ Option.none →
      alistFind (d.map (fun p => if p.1 == k then (k, v) else p)) k = some v := by
    intro d
    induction d with
    | nil => intro h; exact absurd rfl h
    | cons hd tl ih =>
      intro h
      rw [alistFind_cons] at h
      cases hk : hd.1 == k with
      | true =>
        simp only [List.map_cons, hk, if_true]
        rw [alistFind_cons]
        simp
      | false =>
        rw [hk] at h
        simp only [List.map_cons, hk, if_false]
        rw [alistFind_cons, if_neg (by simp [hk])]
        exact ih (by simpa using h)
  have happ : ∀ d : List (String × α), alistFind d k = Option.none →
      alistFind (d ++ [(k, v)]) k = some v := by
    intro d
    induction d with
    | nil => intro _; rw [List.nil_append, alistFind_cons]; simp
    | cons hd tl ih =>
      intro h
      rw [alistFind_cons] at h
      cases hk : hd.1 == k with
      | true => rw [hk] at h; simp at h
      | false =>
        rw [hk] at h
        rw [List.cons_append, alistFind_cons, if_neg (by simp [hk])]
        exact ih (by simpa using h)
  intro d
  unfold alistSet
  cases hf : (d.find? (fun p => p.1 == k)) with
  | some p =>
    have hs : alistFind d k ≠ Option.none := by unfold alistFind; rw [hf]; simp
    simpa [hf] using hmap d hs
  | none =>
    have hn : alistFind d k = Option.none := by unfold alistFind; rw [hf]
    simpa [hf] using happ d hn

theorem alistFind_set_ne {α : Type} (k k2 : String) (v : α) (hne : k2 ≠ k) :
    ∀ d : List (String × α), alistFind (alistSet d k v) k2 = alistFind d k2 := by
  have hkk2 : (k == k2) = false := by
    cases hb : k == k2 with
    | true => exact absurd (beq_iff_eq.mp hb).symm hne
    | false => rfl
  have hmap : ∀ d : List (String × α),
      alistFind (d.map (fun p => if p.1 == k then (k, v) else p)) k2 = alistFind d k2 := by
    intro d
    induction d with
    | nil => rfl
    | cons hd tl ih =>
      cases hk : hd.1 == k with
      | true =>
        have heq : hd.1 = k := beq_iff_eq.mp hk
        have h2 : (hd.1 == k2) = false := by rw [heq]; exact hkk2
        rw [List.map_cons, if_pos hk, alistFind_cons, if_neg (by simp [hkk2]), alistFind_cons,
          if_neg (by simp [h2])]
        exact ih
      | false =>
        rw [List.map_cons, if_neg (by simp [hk]), alistFind_cons, alistFind_cons]
        by_cases h2 : hd.1 = k2
        · rw [if_pos (by simp [h2]), if_pos (by simp [h2])]
        · rw [if_neg (by simp [h2]), if_neg (by simp [h2])]; exact ih
  have happ : ∀ d : List (String × α), alistFind (d ++ [(k, v)]) k2 = alistFind d k2 := by
    intro d
    induction d with
    | nil => rw [List.nil_append, alistFind_cons, if_neg (by simp [hkk2])]
    | cons hd tl ih =>
      rw [List.cons_append, alistFind_cons, alistFind_cons]
      by_cases h2 : hd.1 = k2
      · rw [if_pos (by simp [h2]), if_pos (by simp [h2])]
      · rw [if_neg (by simp [h2]), if_neg (by simp [h2])]; exact ih
  intro d
  unfold alistSet
  cases hf : (d.find? (fun p => p.1 == k)) with
  | some p => simpa [hf] using hmap d
  | none => simpa [hf] using happ d

theorem foldl_statItem_no_write (key : String) :
    ∀ (l : List Node) (d : List (String × String)),
      (∀ it ∈ l, ∀ kv, itemEntry it = some kv → kv.1 ≠ key) →
      alistFind (l.foldl statItem d) key = alistFind d key := by
  intro l
  induction l with
  | nil => intro d _; rfl
  | cons it t ih =>
    intro d h
    have hstep : alistFind (statItem d it) key = alistFind d key := by
      unfold statItem
      cases he : itemEntry it with
      | none => rfl
      | some kv =>
        have hne : kv.1 ≠ key := h it (by simp) kv he
        exact alistFind_set_ne kv.1 key kv.2 (Ne.symm hne) d
    rw [List.foldl_cons, ih (statItem d it) (fun it2 hm kv he => h it2 (by simp [hm]) kv he),
      hstep]

/-! Claim C9. -/

/-- C9: for every parsed HTML document without a `section` element whose id
is `trail-data`, `extract_trail_statistics` returns the empty mapping (the
embedding is a total function, so no exception is possible). -/
theorem extract_trail_statistics_empty_without_region (doc : Node)
    (h : findTrailDataSection doc = Option.none) :
    extract_trail_statistics doc = [] := by
  unfold extract_trail_statistics
  rw [h]


theorem extract_trail_statistics_empty_without_region_witness :
    findTrailDataSection c9doc = Option.none ∧ extract_trail_statistics c9doc = [] :=
  ⟨rfl, extract_trail_statistics_empty_without_region c9doc rfl⟩

/-! Claim C10. -/

/-- C10: in a statistics region, an item whose label contains `TrailRank`
records (never omits) a value equal to the stripped text of the first nested
`span` of its `dd` element — the empty string when there is no such `span` —
regardless of any sibling content of the `dd`.  The last hypothesis rules
out a later item overwriting the same key (dict semantics). -/
theorem trailrank_value_is_first_span_text
    (doc sec item dt dd : Node) (pre post : List Node) (key : String)
    (hsec : findTrailDataSection doc = some sec)
    (hsplit : selectDItems false sec = pre ++ item :: post)
    (hdt : findTag item "dt" = some dt)
    (hdd : findTag item "dd" = some dd)
    (hkey : key = replaceNbsp (getTextStrip dt))
    (htr : strContains key "TrailRank" = true)
    (hpost : ∀ it ∈ post, ∀ kv, itemEntry it = some kv → kv.1 ≠ key) :
    alistFind (extract_trail_statistics doc) key =
      some (match findTag dd "span" with
            | some sp => getTextStrip sp
            | Option.none => "") := by
  subst hkey
  have hentry : itemEntry item = some (replaceNbsp (getTextStrip dt),
      (match findTag dd "span" with
       | some sp => getTextStrip sp
       | Option.none => "")) := by
    unfold itemEntry
    rw [hdt, hdd]
    simp only [htr, if_true]
  have hext : extract_trail_statistics doc = (selectDItems false sec).foldl statItem [] := by
    simp only [extract_trail_statistics, hsec]
  rw [hext, hsplit, List.foldl_append, List.foldl_cons,
    foldl_statItem_no_write _ post _ hpost]
  unfold statItem
  rw [hentry]
  exact alistFind_set_self _ _ _



theorem trailrank_value_is_first_span_text_witness :
    alistFind (extract_trail_statistics c10docA) "TrailRank" = some "85" ∧
    alistFind (extract_trail_statistics c10docB) "TrailRank" = some "" := by
  constructor
  · exact trailrank_value_is_first_span_text c10docA
      (Node.elem "section" (some "trail-data") []
        [Node.elem "dl" none ["data-items"] [
          Node.elem "div" none ["d-item"] [
            Node.elem "dt" none [] [Node.text "TrailRank"],
            Node.elem "dd" none [] [
              Node.elem "span" none [] [Node.text " 85 "],
              Node.elem "span" none ["hidden"] [Node.text "decorative text"]]]]])
      (Node.elem "div" none ["d-item"] [
        Node.elem "dt" none [] [Node.text "TrailRank"],
        Node.elem "dd" none [] [
          Node.elem "span" none [] [Node.text " 85 "],
          Node.elem "span" none ["hidden"] [Node.text "decorative text"]]])
      (Node.elem "dt" none [] [Node.text "TrailRank"])
      (Node.elem "dd" none [] [
        Node.elem "span" none [] [Node.text " 85 "],
        Node.elem "span" none ["hidden"] [Node.text "decorative text"]])
      [] [] "TrailRank" rfl rfl rfl rfl rfl (by decide) (by simp)
  · exact trailrank_value_is_first_span_text c10docB
      (Node.elem "section" (some "trail-data") []
        [Node.elem "dl" none ["data-items"] [
          Node.elem "div" none ["d-item"] [
            Node.elem "dt" none [] [Node.text "TrailRank"],
            Node.elem "dd" none [] [Node.text "no nested sub-element"]]]])
      (Node.elem "div" none ["d-item"] [
        Node.elem "dt" none [] [Node.text "TrailRank"],
        Node.elem "dd" none [] [Node.text "no nested sub-element"]])
      (Node.elem "dt" none [] [Node.text "TrailRank"])
      (Node.elem "dd" none [] [Node.text "no nested sub-element"])
      [] [] "TrailRank" rfl rfl rfl rfl rfl (by decide) (by simp)

/-! Helper lemmas about `Except` binds and `BEq` on strings. -/

theorem exbind_ok {α β : Type} (a : α) (f : α → Except PyExc β) :
    (Except.ok a >>= f) = f a := rfl

theorem exbind_err {α β : Type} (e : PyExc) (f : α → Except PyExc β) :
    ((Except.error e : Except PyExc α) >>= f) = Except.error e := rfl

theorem expure_eq {α : Type} (a : α) : (pure a : Except PyExc α) = Except.ok a := rfl

theorem beq_false_of_string_ne (a b : String) (h : a ≠ b) : (a == b) = false := by
  cases hb : a == b with
  | true => exact absurd (beq_iff_eq.mp hb) h
  | false => rfl

/-! Claim C8. -/

/-- C8: the rendered difficulty maps each of the five table values to its
exact English equivalent and everything else — an unknown string, an absent
key, a `None` value — to `"Unknown"`; and every successful `format_trail`
output carries that rendering in its `Difficulty :` field. -/
theorem difficulty_rendering (trail : Trail) :
    (alistFind trail "Dificultad técnica" = some (PyVal.str "Fácil") →
      difficultyOf trail = "Easy") ∧
    (alistFind trail "Dificultad técnica" = some (PyVal.str "Moderado") →
      difficultyOf trail = "Moderate") ∧
    (alistFind trail "Dificultad técnica" = some (PyVal.str "Difícil") →
      difficultyOf trail = "Hard") ∧
    (alistFind trail "Dificultad técnica" = some (PyVal.str "Muy Difícil") →
      difficultyOf trail = "Very Hard") ∧
    (alistFind trail "Dificultad técnica" = some (PyVal.str "Solo expertos") →
      difficultyOf trail = "Experts Only") ∧
    (∀ v : String, v ≠ "Fácil" → v ≠ "Moderado" → v ≠ "Difícil" → v ≠ "Muy Difícil" →
      v ≠ "Solo expertos" → alistFind trail "Dificultad técnica" = some (PyVal.str v) →
      difficultyOf trail = "Unknown") ∧
    (alistFind trail "Dificultad técnica" = Option.none → difficultyOf trail = "Unknown") ∧
    (alistFind trail "Dificultad técnica" = some PyVal.noneV → difficultyOf trail = "Unknown") ∧
    (∀ s : String, format_trail trail = Except.ok s →
      ∃ pre post : String,
        s = pre ++ "\nDifficulty : " ++ difficultyOf trail ++ "\nMaximum altitude: " ++ post) := by
  refine ⟨?_, ?_, ?_, ?_, ?_, ?_, ?_, ?_, ?_⟩
  · intro h; unfold difficultyOf pyGet; rw [h]; rfl
  · intro h; unfold difficultyOf pyGet; rw [h]; rfl
  · intro h; unfold difficultyOf pyGet; rw [h]; rfl
  · intro h; unfold difficultyOf pyGet; rw [h]; rfl
  · intro h; unfold difficultyOf pyGet; rw [h]; rfl
  · intro v hv1 hv2 hv3 hv4 hv5 h
    unfold difficultyOf pyGet
    rw [h]
    show (alistFind difficulty_translation v).getD "Unknown" = "Unknown"
    have hb1 := beq_false_of_string_ne "Fácil" v (fun he => hv1 he.symm)
    have hb2 := beq_false_of_string_ne "Moderado" v (fun he => hv2 he.symm)
    have hb3 := beq_false_of_string_ne "Difícil" v (fun he => hv3 he.symm)
    have hb4 := beq_false_of_string_ne "Muy Difícil" v (fun he => hv4 he.symm)
    have hb5 := beq_false_of_string_ne "Solo expertos" v (fun he => hv5 he.symm)
    show (alistFind
      [("Fácil", "Easy"), ("Moderado", "Moderate"), ("Difícil", "Hard"),
       ("Muy Difícil", "Very Hard"), ("Solo expertos", "Experts Only")] v).getD "Unknown" = "Unknown"
    rw [alistFind_cons, if_neg (by simp [hb1]), alistFind_cons, if_neg (by simp [hb2]),
      alistFind_cons, if_neg (by simp [hb3]), alistFind_cons, if_neg (by simp [hb4]),
      alistFind_cons, if_neg (by simp [hb5])]
    rfl
  · intro h; unfold difficultyOf pyGet; rw [h]; rfl
  · intro h; unfold difficultyOf pyGet; rw [h]; rfl
  · intro s h
    unfold format_trail at h
    cases h1 : pyGetItem trail "title" with
    | error e => rw [h1, exbind_err] at h; exact absurd h (by simp)
    | ok title =>
    rw [h1, exbind_ok] at h
    cases h2 : pyGetItem trail "url" with
    | error e => rw [h2, exbind_err] at h; exact absurd h (by simp)
    | ok url =>
    rw [h2, exbind_ok] at h
    cases h3 : pyGetItem trail "Distancia" with
    | error e => rw [h3, exbind_err] at h; exact absurd h (by simp)
    | ok dist =>
    rw [h3, exbind_ok] at h
    cases h4 : pyGetItem trail "Desnivel positivo" with
    | error e => rw [h4, exbind_err] at h; exact absurd h (by simp)
    | ok gain =>
    rw [h4, exbind_ok] at h
    cases h5 : pyGetItem trail "Desnivel negativo" with
    | error e => rw [h5, exbind_err] at h; exact absurd h (by simp)
    | ok loss =>
    rw [h5, exbind_ok] at h
    cases h6 : pyGetItem trail "Altitud máxima" with
    | error e => rw [h6, exbind_err] at h; exact absurd h (by simp)
    | ok maxAlt =>
    rw [h6, exbind_ok] at h
    cases h7 : pyGetItem trail "TrailRank" with
    | error e => rw [h7, exbind_err] at h; exact absurd h (by simp)
    | ok rank =>
    rw [h7, exbind_ok] at h
    cases h8 : pyGetItem trail "Altitud mínima" with
    | error e => rw [h8, exbind_err] at h; exact absurd h (by simp)
    | ok minAlt =>
    rw [h8, exbind_ok] at h
    cases h9 : pyGetItem trail "Tipo de ruta" with
    | error e => rw [h9, exbind_err] at h; exact absurd h (by simp)
    | ok routeType =>
    rw [h9, exbind_ok, expure_eq] at h
    have hs := (Except.ok.injEq _ _).mp h.symm
    refine ⟨"\nTitle: " ++ title.render ++ "\nURL: " ++ url.render ++ "\nDistance: " ++
      dist.render ++ " " ++ "\nElevation gain: " ++ gain.render ++ "\nElevation loss: " ++
      loss.render,
      maxAlt.render ++ "\nTrailRank: " ++ rank.render ++ "\nMinimum altitude: " ++
      minAlt.render ++ "\nTrail type: " ++ routeType.render ++ "\n", ?_⟩
    rw [hs]
    simp [String.append_assoc]





theorem difficulty_rendering_witness :
    difficultyOf c8trailEasy = "Easy" ∧
    difficultyOf c8trailOdd = "Unknown" ∧
    difficultyOf c8trailAbsent = "Unknown" ∧
    (∃ pre post : String,
      c8rendered = pre ++ "\nDifficulty : " ++ difficultyOf c8trailEasy ++
        "\nMaximum altitude: " ++ post) :=
  ⟨(difficulty_rendering c8trailEasy).1 rfl,
   (difficulty_rendering c8trailOdd).2.2.2.2.2.1 "Extrema"
     (by decide) (by decide) (by decide) (by decide) (by decide) rfl,
   (difficulty_rendering c8trailAbsent).2.2.2.2.2.2.1 rfl,
   (difficulty_rendering c8trailEasy).2.2.2.2.2.2.2.2 c8rendered rfl⟩

/-! Claim C4. -/

/-- C4: a search response without the `spas` key yields exactly the fixed
unable-to-fetch message, a response with an empty `spas` list yields the
distinct fixed no-trails message, and the two messages differ. -/
theorem search_trails_fixed_messages :
    (∀ (env : FetchEnv) (M : Nat) (d : SearchJson), env.search = SearchResp.json d →
      d.spas = Option.none →
      search_trails env M = Except.ok "Unable to fetch trails or no trails found.") ∧
    (∀ (env : FetchEnv) (M : Nat) (d : SearchJson), env.search = SearchResp.json d →
      d.spas = some [] →
      search_trails env M = Except.ok "No trails found for this search.") ∧
    ("Unable to fetch trails or no trails found." ≠ "No trails found for this search.") := by
  refine ⟨?_, ?_, by decide⟩
  · intro env M d hs hn
    unfold search_trails
    rw [hs]
    simp [respFalsy, hasSpasKey, hn]
  · intro env M d hs hn
    unfold search_trails
    rw [hs]
    simp [respFalsy, hasSpasKey, spasOf, hn]



theorem search_trails_fixed_messages_witness :
    search_trails envMissingKey 5 = Except.ok "Unable to fetch trails or no trails found." ∧
    search_trails envEmptyList 5 = Except.ok "No trails found for this search." :=
  ⟨search_trails_fixed_messages.1 envMissingKey 5 (SearchJson.mk Option.none ["count"]) rfl rfl,
   search_trails_fixed_messages.2.1 envEmptyList 5 (SearchJson.mk (some []) []) rfl rfl⟩

/-! Claim C2. -/

/-- C2: the `wikiloc` module defines `search_trails` but no `search_routes`,
so `get_routes` raises `AttributeError` on the module attribute lookup for
every input, independently of what the search would return — it never
returns a formatted result string. -/
theorem get_routes_attribute_error :
    wikiloc_module_attrs.contains "search_routes" = false ∧
    wikiloc_module_attrs.contains "search_trails" = true ∧
    ∀ (searchImpl : Except PyExc String) (query : String)
      (sw_lat sw_lon ne_lat ne_lon : ℚ) (page : Int) (max_results : Nat),
      get_routes searchImpl query sw_lat sw_lon ne_lat ne_lon page max_results =
        Except.error (PyExc.attributeError "search_routes") :=
  ⟨rfl, rfl, fun _ _ _ _ _ _ _ _ => rfl⟩

/-! Helper lemmas about `List.mapM` over `Except`. -/

theorem mapM_ok_length {α β : Type} (f : α → Except PyExc β) :
    ∀ (l : List α) (l2 : List β), l.mapM f = Except.ok l2 → l2.length = l.length := by
  intro l
  induction l with
  | nil =>
    intro l2 h
    rw [List.mapM_nil, expure_eq] at h
    injection h with h2
    subst h2
    rfl
  | cons a t ih =>
    intro l2 h
    rw [List.mapM_cons] at h
    cases hfa : f a with
    | error e => rw [hfa, exbind_err] at h; exact absurd h (by simp)
    | ok b =>
      rw [hfa, exbind_ok] at h
      cases hmt : t.mapM f with
      | error e => rw [hmt, exbind_err] at h; exact absurd h (by simp)
      | ok bs =>
        rw [hmt, exbind_ok, expure_eq] at h
        injection h with h2
        rw [← h2]
        simp [ih bs hmt]

theorem mapM_error_of_head {α β : Type} (f : α → Except PyExc β) (a : α) (t : List α)
    (e : PyExc) (h : f a = Except.error e) : (a :: t).mapM f = Except.error e := by
  rw [List.mapM_cons, h, exbind_err]

/-! Claim C5. -/

/-- C5: whenever the candidate list is present and non-empty, every candidate
record builds, and the first `min L M` of them render, `search_trails`
returns exactly those `min L M` rendered entries joined by the fixed
`\n---\n` delimiter — also when `M` exceeds the list length or `M = 0`. -/
theorem search_trails_renders_min_entries (env : FetchEnv) (d : SearchJson) (spas : List Spa)
    (trails : List Trail) (rendered : List String) (M : Nat)
    (hs : env.search = SearchResp.json d)
    (hspas : d.spas = some spas)
    (hne : spas ≠ [])
    (hb : spas.mapM (buildTrail env) = Except.ok trails)
    (hf : (trails.take M).mapM format_trail = Except.ok rendered) :
    search_trails env M = Except.ok (String.intercalate "\n---\n" rendered) ∧
    rendered.length = min spas.length M := by
  have hne2 : spas.isEmpty = false := by
    cases spas with
    | nil => exact absurd rfl hne
    | cons a t => rfl
  constructor
  · have e1 : search_trails env M = ((spas.mapM (buildTrail env)) >>= fun trails2 =>
        ((trails2.take M).mapM format_trail) >>= fun top =>
          pure (String.intercalate "\n---\n" top)) := by
      unfold search_trails
      rw [hs]
      simp [respFalsy, hasSpasKey, spasOf, hspas, hne2]
    rw [e1, hb, exbind_ok]
    rw [hf, exbind_ok, expure_eq]
  · rw [mapM_ok_length format_trail (trails.take M) rendered hf, List.length_take,
      mapM_ok_length (buildTrail env) spas trails hb, Nat.min_comm]






theorem search_trails_renders_min_entries_witness :
    (search_trails envSearchOk 5 = Except.ok (String.intercalate "\n---\n" [renderedA]) ∧
      [renderedA].length = min 1 5) ∧
    (search_trails envSearchOk 0 = Except.ok (String.intercalate "\n---\n" ([] : List String)) ∧
      ([] : List String).length = min 1 0) :=
  ⟨search_trails_renders_min_entries envSearchOk (SearchJson.mk (some [spaA]) []) [spaA]
      [trailA] [renderedA] 5 rfl rfl (by simp) rfl rfl,
   search_trails_renders_min_entries envSearchOk (SearchJson.mk (some [spaA]) []) [spaA]
      [trailA] [] 0 rfl rfl (by simp) rfl rfl⟩

/-! Claim C3. -/



/-- C3 counterexample: one candidate whose detail fetch fails (the upstream
returns the no-result signal, so `isinstance(response, str)` is false).  With
the default cap of 5 the candidate is rendered, and `search_trails` raises
`KeyError("Distancia")` instead of completing with a formatted result. -/
theorem search_trails_fetch_failure_counterexample :
    envDetailFail.detail "https://es.wikiloc.com/wikiloc/test-trail" = DetailResp.nonHtml ∧
    search_trails envDetailFail 5 = Except.error (PyExc.keyError "Distancia") :=
  ⟨rfl, rfl⟩

/-- C3 amended: a candidate whose detail fetch fails is left with exactly its
seven summary fields — no statistics merged, and the fetch/merge loop raises
nothing.  But rendering such a candidate raises `KeyError("Distancia")`, so
`search_trails` completes only when every fetch-failed candidate lies beyond
the first `max_results` positions; with such a candidate in rendering range
(shown here in head position, the remaining candidates building fine) the
call returns that `KeyError` instead of a formatted result. -/
theorem fetch_failure_keeps_summary_only :
    (∀ (env : FetchEnv) (spa : Spa) (name purl : PyVal),
      pyGetItem spa "name" = Except.ok name →
      pyGetItem spa "prettyURL" = Except.ok purl →
      env.detail ("https://es.wikiloc.com" ++ purl.render) = DetailResp.nonHtml →
      buildTrail env spa = Except.ok
        [("title", name),
         ("url", PyVal.str ("https://es.wikiloc.com" ++ purl.render)),
         ("distance_km", pyGet spa "distance" PyVal.noneV),
         ("slope", pyGet spa "slope" PyVal.noneV),
         ("author", pyGet spa "author" PyVal.noneV),
         ("location", pyGet spa "near" PyVal.noneV),
         ("trailrank", pyGet spa "trailrank" PyVal.noneV)]) ∧
    (∀ (env : FetchEnv) (d : SearchJson) (spa : Spa) (rest : List Spa)
       (restTrails : List Trail) (name purl : PyVal) (M : Nat),
      env.search = SearchResp.json d →
      d.spas = some (spa :: rest) →
      pyGetItem spa "name" = Except.ok name →
      pyGetItem spa "prettyURL" = Except.ok purl →
      env.detail ("https://es.wikiloc.com" ++ purl.render) = DetailResp.nonHtml →
      rest.mapM (buildTrail env) = Except.ok restTrails →
      0 < M →
      search_trails env M = Except.error (PyExc.keyError "Distancia")) := by
  have hbuild : ∀ (env : FetchEnv) (spa : Spa) (name purl : PyVal),
      pyGetItem spa "name" = Except.ok name →
      pyGetItem spa "prettyURL" = Except.ok purl →
      env.detail ("https://es.wikiloc.com" ++ purl.render) = DetailResp.nonHtml →
      buildTrail env spa = Except.ok
        [("title", name),
         ("url", PyVal.str ("https://es.wikiloc.com" ++ purl.render)),
         ("distance_km", pyGet spa "distance" PyVal.noneV),
         ("slope", pyGet spa "slope" PyVal.noneV),
         ("author", pyGet spa "author" PyVal.noneV),
         ("location", pyGet spa "near" PyVal.noneV),
         ("trailrank", pyGet spa "trailrank" PyVal.noneV)] := by
    intro env spa name purl hname hpurl hdet
    unfold buildTrail
    rw [hname, exbind_ok, hpurl, exbind_ok]
    simp only [hdet]
    rfl
  refine ⟨hbuild, ?_⟩
  intro env d spa rest restTrails name purl M hs hspas hname hpurl hdet hrest hM
  have hformat : format_trail
      [("title", name),
       ("url", PyVal.str ("https://es.wikiloc.com" ++ purl.render)),
       ("distance_km", pyGet spa "distance" PyVal.noneV),
       ("slope", pyGet spa "slope" PyVal.noneV),
       ("author", pyGet spa "author" PyVal.noneV),
       ("location", pyGet spa "near" PyVal.noneV),
       ("trailrank", pyGet spa "trailrank" PyVal.noneV)] =
      Except.error (PyExc.keyError "Distancia") := rfl
  obtain ⟨M2, rfl⟩ : ∃ M2, M = M2 + 1 := ⟨M - 1, (Nat.succ_pred_eq_of_pos hM).symm⟩
  have e1 : search_trails env (M2 + 1) = (((spa :: rest).mapM (buildTrail env)) >>=
      fun trails2 => ((trails2.take (M2 + 1)).mapM format_trail) >>= fun top =>
        pure (String.intercalate "\n---\n" top)) := by
    unfold search_trails
    rw [hs]
    simp [respFalsy, hasSpasKey, spasOf, hspas]
  rw [e1, List.mapM_cons, hbuild env spa name purl hname hpurl hdet, exbind_ok, hrest,
    exbind_ok, expure_eq, exbind_ok, List.take_succ_cons,
    mapM_error_of_head format_trail _ _ _ hformat, exbind_err]

theorem fetch_failure_keeps_summary_only_witness :
    buildTrail envDetailFail spaNoDetail = Except.ok
      [("title", PyVal.str "Test Trail"),
       ("url", PyVal.str "https://es.wikiloc.com/wikiloc/test-trail"),
       ("distance_km", PyVal.noneV), ("slope", PyVal.noneV), ("author", PyVal.noneV),
       ("location", PyVal.noneV), ("trailrank", PyVal.noneV)] ∧
    search_trails envDetailFail 5 = Except.error (PyExc.keyError "Distancia") :=
  ⟨fetch_failure_keeps_summary_only.1 envDetailFail spaNoDetail
      (PyVal.str "Test Trail") (PyVal.str "/wikiloc/test-trail") rfl rfl rfl,
   fetch_failure_keeps_summary_only.2 envDetailFail (SearchJson.mk (some [spaNoDetail]) [])
      spaNoDetail [] [] (PyVal.str "Test Trail") (PyVal.str "/wikiloc/test-trail") 5
      rfl rfl rfl rfl rfl rfl (by decide)⟩

/-! Claim C7. -/

/-- C7: a candidate line whose processing fails with one of the caught
classes (`json.JSONDecodeError` for malformed JSON, `KeyError` for missing
keys, `IndexError`, `binascii.Error` for invalid base64 — the classes named
in the `except` clause) is skipped and the scan continues with the next
line; and a document with no candidate line yields the empty result without
raising. -/
theorem extract_geometry_failure_policy :
    (∀ (env : PyEnv) (line : String) (rest : List String) (e : PyExc),
      strContains line "var mapData =" = true →
      extractFromLine env line = Except.error e →
      caughtByExtractGeometry e = true →
      extractGeometryLoop env (line :: rest) = extractGeometryLoop env rest) ∧
    (∀ (env : PyEnv) (html : String),
      (∀ line ∈ pySplit html '\n', strContains line "var mapData =" = false) →
      extract_geometry env html = Except.ok Option.none) := by
  constructor
  · intro env line rest e h1 h2 h3
    simp [extractGeometryLoop, h1, h2, h3]
  · intro env html hall
    have aux : ∀ l : List String,
        (∀ line ∈ l, strContains line "var mapData =" = false) →
        extractGeometryLoop env l = Except.ok Option.none := by
      intro l
      induction l with
      | nil => intro _; rfl
      | cons a t ih =>
        intro h
        have ha : strContains a "var mapData =" = false := h a (by simp)
        simp [extractGeometryLoop, ha]
        exact ih (fun l2 hl2 => h l2 (by simp [hl2]))
    exact aux (pySplit html '\n') hall



theorem extract_geometry_failure_policy_witness :
    extractGeometryLoop c7env [c7line] = extractGeometryLoop c7env [] ∧
    extract_geometry c7env "first line\nsecond line" = Except.ok Option.none :=
  ⟨extract_geometry_failure_policy.1 c7env c7line [] PyExc.jsonDecodeError rfl rfl rfl,
   extract_geometry_failure_policy.2 c7env "first line\nsecond line" (by decide)⟩

/-! Claim C6. -/

/-- C6 counterexample: a page whose embedded record decodes to the
longitude-first GeoJSON rows `[1.5, 2.5, 0]` and `[1.6, 2.6, 7]` (so the
first row has longitude `1.5`, latitude `2.5`).  The first component of the
first returned point is `1.5` — the longitude, not the latitude `2.5`: the
claimed latitude-first reassociation does not happen. -/
theorem extract_geometry_lon_first_counterexample :
    extract_geometry geoEnv geoHtml = Except.ok (some geoResult) ∧
    geoResult.coordinates =
      [(Json.num "1.5", Json.num "2.5", Json.num "0"),
       (Json.num "1.6", Json.num "2.6", Json.num "7")] ∧
    (geoResult.coordinates.headD (Json.null, Json.null, Json.null)).1 = Json.num "1.5" ∧
    Json.num "1.5" ≠ Json.num "2.5" :=
  ⟨rfl, rfl, rfl, by simp⟩

/-- C6 amended: no axis-order translation occurs.  Each decoded GeoJSON
coordinate row is tupled up in its source component order — the returned
first component is the row's first entry (the longitude), the second the
row's second entry (the latitude), and the third the row's third entry. -/
theorem lineStringCoords_preserves_component_order (rows : List Json)
    (h : ∀ r ∈ rows, ∃ a b c rest2, r = Json.arr (a :: b :: c :: rest2)) :
    lineStringCoords (Json.obj [("type", Json.str "LineString"),
      ("coordinates", Json.arr rows)]) = Except.ok (rows.map rowComponents) := by
  have aux : ∀ rs : List Json,
      (∀ r ∈ rs, ∃ a b c rest2, r = Json.arr (a :: b :: c :: rest2)) →
      rs.mapM (fun c => do
        let c0 ← c.getIdx 0
        let c1 ← c.getIdx 1
        let c2 ← c.getIdx 2
        pure (c0, c1, c2)) = Except.ok (rs.map rowComponents) := by
    intro rs
    induction rs with
    | nil => intro _; rfl
    | cons r t ih =>
      intro h2
      obtain ⟨a, b, c, rest2, hr⟩ := h2 r (List.mem_cons_self r t)
      subst hr
      have hf : (do
          let c0 ← (Json.arr (a :: b :: c :: rest2)).getIdx 0
          let c1 ← (Json.arr (a :: b :: c :: rest2)).getIdx 1
          let c2 ← (Json.arr (a :: b :: c :: rest2)).getIdx 2
          pure (c0, c1, c2) : Except PyExc (Json × Json × Json)) = Except.ok (a, b, c) := rfl
      rw [List.mapM_cons, hf, exbind_ok,
        ih (fun r2 hr2 => h2 r2 (List.mem_cons_of_mem _ hr2)), exbind_ok, expure_eq]
      simp [rowComponents]
  exact aux rows h


theorem lineStringCoords_preserves_component_order_witness :
    lineStringCoords (Json.obj [("type", Json.str "LineString"),
      ("coordinates", Json.arr c6rows)]) =
      Except.ok [(Json.num "1.5", Json.num "2.5", Json.num "0"),
                 (Json.num "1.6", Json.num "2.6", Json.num "7")] :=
  lineStringCoords_preserves_component_order c6rows (by
    intro r hr
    simp only [c6rows, List.mem_cons, List.mem_singleton] at hr
    rcases hr with h | h | h
    · exact ⟨Json.num "1.5", Json.num "2.5", Json.num "0", [], h⟩
    · exact ⟨Json.num "1.6", Json.num "2.6", Json.num "7", [], h⟩
    · cases h)

/-! Claim C1. -/

/-- C1: even on a detail page whose embedded geometry block decodes
perfectly (first conjunct), `get_route_geometry` never succeeds: the call
`wikiloc.create_kml(coordinates, kml_path)` passes two positional arguments
to a function with three required parameters, so every run raises
`TypeError` before any track file is written and no response with map-link
coordinates is ever returned. -/
theorem get_route_geometry_always_type_error :
    extract_geometry geoEnv geoHtml = Except.ok (some geoResult) ∧
    get_route_geometry geoEnv routeFetch "https://es.wikiloc.com/rutas/test-route-123" =
      Except.error PyExc.typeError :=
  ⟨rfl, rfl⟩

end McpHiking
